import Mathlib

/-!
Exequias API: admission middleware and authentication handlers.

A shallow embedding of `src/middleware/security.middleware.js`,
`src/services/auth.service.js`, `src/controllers/auth.controller.js`,
`src/utils/jwt.js` and `src/utils/format.js`.

JavaScript handlers act on collaborators (`res`, `next`, `logger`, the
database, the Arcjet client, bcrypt, jsonwebtoken).  A handler is embedded as
a computation in the monad `Js`: it threads a `World` (the database, the
state of the response and the trace of calls made on the collaborators) and
ends either normally or with a thrown error, a `JsError`.  The state survives a throw, as in JavaScript, so
`try ... catch` is embedded by `Js.tryCatch`.
-/

namespace Exequias

/-! ## Values -/

/-- JSON values as far as the handlers build them. -/
inductive Json where
  | null
  | str (s : String)
  | num (n : Nat)
  | obj (fields : List (String × Json))

/-- A JavaScript string-or-undefined value as a JSON value. -/
def Json.ofOption : Option String → Json
  | some s => Json.str s
  | none => Json.null

/-- The keys of a JSON object, in order; no keys for the other values. -/
def Json.keys : Json → List String
  | Json.obj fields => fields.map Prod.fst
  | _ => []

/-- The options object given to `slidingWindow`. -/
structure Rule where
  mode : String
  interval : String
  max : Nat
  name : String
  deriving DecidableEq

/-- The payload given to `jwttoken.sign`. -/
structure Claims where
  id : Nat
  email : String
  role : String
  deriving DecidableEq

/-- One call made on a collaborator. -/
inductive Effect where
  /-- A call `logger.<level>(msg, data)`; `data` is `Json.null` when absent. -/
  | log (level : String) (msg : String) (data : Json)
  /-- A call `aj.withRule(slidingWindow(rule)).protect(req)`. -/
  | protect (rule : Rule)
  /-- A call `res.status(status).json(body)` that went through: a response
  sent. -/
  | respond (status : Nat) (body : Json)
  /-- A call `res.status(status).json(body)` that threw: nothing was sent. -/
  | respondThrew (status : Nat) (body : Json)
  /-- A call `next()` (`none`) or `next(error)` (`some error.message`). -/
  | next (err : Option String)
  /-- A call `jwt.sign(payload, JWT_SECRET, { expiresIn })`. -/
  | jwtSign (payload : Claims) (expiresIn : String)
  /-- A call `cookies.set(res, name, value)`. -/
  | cookieSet (name : String) (value : String)
  /-- A call `cookies.clear(res, name)`. -/
  | cookieClear (name : String)

/-- A row of the `users` table. -/
structure UserRow where
  id : Nat
  name : String
  email : String
  password : String
  role : String
  created_at : Nat
  deriving DecidableEq

/-- The database: the rows of `users` and the next serial id. -/
structure Db where
  rows : List UserRow
  nextId : Nat

/-- What a handler acts on. -/
structure World where
  db : Db
  headersSent : Bool
  trace : List Effect

/-- The world a request starts in: nothing sent, nothing called. -/
def World.init (db : Db) : World :=
  { db := db, headersSent := false, trace := [] }

/-! ## The monad of handlers -/

/-- A thrown JavaScript error as the handlers read it: its `message` and the
text a template literal gives for it. -/
structure JsError where
  message : String
  text : String
  deriving DecidableEq

/-- The error `new Error(msg)`: its text is `Error: <msg>`, or `Error` for an
empty message. -/
def JsError.ofMessage (msg : String) : JsError :=
  { message := msg, text := if msg = "" then "Error" else "Error: " ++ msg }

/-- The error Node throws when a header is set after the response was sent. -/
def headersSentError : JsError :=
  { message := "Cannot set headers after they are sent to the client",
    text := "Error [ERR_HTTP_HEADERS_SENT]: Cannot set headers after they are sent to the client" }

/-- A computation that may throw an error and acts on the world. -/
def Js (α : Type) : Type := World → Except JsError α × World

/-- Return a value. -/
def Js.pure {α : Type} (a : α) : Js α := fun w => (Except.ok a, w)

/-- Sequence two computations; a throw of the first skips the second. -/
def Js.bind {α β : Type} (m : Js α) (f : α → Js β) : Js β := fun w =>
  match m w with
  | (Except.ok a, w1) => f a w1
  | (Except.error e, w1) => (Except.error e, w1)

/-- The statement `throw error`. -/
def Js.throw {α : Type} (error : JsError) : Js α := fun w => (Except.error error, w)

/-- The statement `throw new Error(msg)`. -/
def throwNew {α : Type} (msg : String) : Js α := Js.throw (JsError.ofMessage msg)

/-- The statement `try { body } catch (error) { handler }`. -/
def Js.tryCatch {α : Type} (body : Js α) (handler : JsError → Js α) : Js α := fun w =>
  match body w with
  | (Except.ok a, w1) => (Except.ok a, w1)
  | (Except.error e, w1) => handler e w1

instance : Monad Js where
  pure := Js.pure
  bind := Js.bind

instance : MonadExcept JsError Js where
  throw := Js.throw
  tryCatch := Js.tryCatch

/-- Record a call in the trace. -/
def emit (e : Effect) : Js Unit := fun w =>
  (Except.ok (), { w with trace := w.trace ++ [e] })

/-- The result of a pure collaborator call: a value or a throw. -/
def liftExcept {α : Type} : Except JsError α → Js α
  | Except.ok a => Js.pure a
  | Except.error e => Js.throw e

/-- Run a handler on a fresh request. -/
def run {α : Type} (m : Js α) (db : Db) : Except JsError α × World :=
  m (World.init db)

/-! ## Collaborators -/

/-- Modelled from the spec: the logger of `#config/logger.js`, a logging
helper whose only part in a request is the log entry it writes.  A call is
recorded; it does not throw. -/
def logger (level msg : String) (data : Json) : Js Unit :=
  emit (Effect.log level msg data)

/-- The call `res.status(status).json(body)`.  With `strict` (an Express
response) a call made after a response was sent throws the error of Node for
headers already sent, and sends nothing; without it (a recording double of
the response) every call goes through.  A call that goes through sends the
response. -/
def resStatusJson (strict : Bool) (status : Nat) (body : Json) : Js Unit := fun w =>
  if w.headersSent && strict then
    (Except.error headersSentError,
      { w with trace := w.trace ++ [Effect.respondThrew status body] })
  else
    (Except.ok (), { w with headersSent := true, trace := w.trace ++ [Effect.respond status body] })

/-- The call `next()` or `next(error)`. -/
def next (err : Option String) : Js Unit :=
  emit (Effect.next err)

/-- An Arcjet decision as the middleware reads it: `isDenied()`, the three
tests on `reason`, and the text a template literal gives for it. -/
structure Decision where
  isDenied : Bool
  isBot : Bool
  isShield : Bool
  isRateLimit : Bool
  text : String

/-- The request fields the handlers read. -/
structure Request where
  /-- The field `req.user?.role`: `none` when `req.user` or its `role` is absent. -/
  userRole : Option String
  ip : Option String
  userAgent : Option String
  path : String
  method : String
  /-- The value of `req.cookies.token`. -/
  tokenCookie : Option String
  body : Json

/-! ## `src/middleware/security.middleware.js` -/

/-- The expression `req.user?.role || 'guest'`: an absent or empty role is
falsy. -/
def roleOf (req : Request) : String :=
  match req.userRole with
  | some r => if r = "" then "guest" else r
  | none => "guest"

/-- The `switch (role)` of the middleware: the limit and the message. -/
def limitOf (role : String) : Nat × String :=
  if role = "admin" then
    (100, "Admin request limit exceeded (100 per minute). Slow down.")
  else if role = "user" then
    (50, "User request limit exceeded (50 per minute). Slow down.")
  else
    (10, "Guest request limit exceeded (10 per minute). Slow down.")

/-- The rule `slidingWindow({ mode: 'LIVE', interval: '1m', max: limit,
name: role + '_rate_limit' })` the middleware builds for a request. -/
def ruleOf (req : Request) : Rule :=
  let role := roleOf req
  let limit := (limitOf role).1
  { mode := "LIVE", interval := "1m", max := limit, name := role ++ "_rate_limit" }

/-- The middleware `securityMiddleware(req, res, next)`.  The Arcjet client is
the parameter `protect`: what `aj.withRule(rule).protect(req)` returns or
throws. -/
def securityMiddleware (strict : Bool)
    (protect : Rule → Request → Except JsError Decision) (req : Request) : Js Unit :=
  tryCatch
    (do
      let rule := ruleOf req
      emit (Effect.protect rule)
      let decision ← liftExcept (protect rule req)
      logger "info" ("Arcjet middleware decision : " ++ decision.text) Json.null
      if decision.isDenied && decision.isBot then
        logger "warn" "Bot request detected."
          (Json.obj [("ip", Json.ofOption req.ip), ("userAgent", Json.ofOption req.userAgent),
            ("path", Json.str req.path)])
        resStatusJson strict 403
          (Json.obj [("error", Json.str "Forbidden"),
            ("message", Json.str "Automated requests are not allowed.")])
      if decision.isDenied && decision.isShield then
        logger "warn" "Shield request detected."
          (Json.obj [("ip", Json.ofOption req.ip), ("userAgent", Json.ofOption req.userAgent),
            ("path", Json.str req.path), ("method", Json.str req.method)])
        resStatusJson strict 403
          (Json.obj [("error", Json.str "Forbidden"),
            ("message", Json.str "Request blocked by security policy.")])
      if decision.isDenied && decision.isRateLimit then
        logger "warn" "Rate limit request detected."
          (Json.obj [("ip", Json.ofOption req.ip), ("userAgent", Json.ofOption req.userAgent),
            ("path", Json.str req.path)])
        resStatusJson strict 403
          (Json.obj [("error", Json.str "Forbidden"),
            ("message", Json.str "Too many requests. Please try again later.")])
      next none)
    (fun error => do
      logger "error" ("Erreur Arcjet middleware : " ++ error.text) Json.null
      resStatusJson strict 500
        (Json.obj [("error", Json.str "Forbidden"),
          ("message", Json.str "Erreur survenue lors de la vérification de la sécurité.")]))

/-! ## `src/utils/format.js` -/

/-- The argument of `formatValidationError` as the function inspects it. -/
inductive ValidationErrors where
  /-- The value `errors` or its field `issues` is falsy. -/
  | missing
  /-- The field `issues` is an array; the `message` of each issue. -/
  | issues (messages : List String)
  /-- The field `issues` is something else; what `JSON.stringify(errors)` gives. -/
  | other (stringified : String)

/-- The function `formatValidationError(errors)`. -/
def formatValidationError : ValidationErrors → String
  | ValidationErrors.missing => "Échec de la validation"
  | ValidationErrors.issues messages => ", ".intercalate messages
  | ValidationErrors.other stringified => stringified

/-! ## External libraries and modules outside `src/` -/

/-- The data `signupSchema.safeParse` yields on success. -/
structure SignupData where
  name : String
  email : String
  password : String
  /-- The field `role` is `undefined` when the body has none. -/
  role : Option String

/-- The data `signinSchema.safeParse` yields on success. -/
structure SigninData where
  email : String
  password : String

/-- The collaborators of the authentication handlers that are not in `src/`:
the bcrypt and jsonwebtoken libraries, the validation schemas, the
environment and the clock of the database. -/
structure Env where
  /-- Whether the response is an Express response, see `resStatusJson`. -/
  strict : Bool
  /-- The call `bcrypt.hash(password, rounds)`. -/
  bcryptHash : String → Nat → Except JsError String
  /-- The call `bcrypt.compare(password, hashedPassword)`. -/
  bcryptCompare : String → String → Except JsError Bool
  /-- The call `jwt.sign(payload, secret, { expiresIn })`. -/
  jwtSign : Claims → String → String → Except JsError String
  /-- The value of `process.env.JWT_SECRET`. -/
  envJwtSecret : Option String
  /-- The call `signupSchema.safeParse(body)`. -/
  signupSchema : Json → Except ValidationErrors SignupData
  /-- The call `signinSchema.safeParse(body)`. -/
  signinSchema : Json → Except ValidationErrors SigninData
  /-- The time the database stamps a new row with. -/
  now : Nat

/-- Modelled from the spec: `cookies.set` of `#utils/cookies.js`, the
operation `attach(response, token)` of the Session Transport, which sets a
single cookie carrying the token.  The call is recorded. -/
def cookiesSet (name value : String) : Js Unit :=
  emit (Effect.cookieSet name value)

/-- Modelled from the spec: `cookies.get` of `#utils/cookies.js`, the
operation `read(request)` of the Session Transport, which extracts the cookie
value without decoding it, or finds it absent. -/
def cookiesGet (req : Request) : Js (Option String) :=
  Js.pure req.tokenCookie

/-- Modelled from the spec: `cookies.clear` of `#utils/cookies.js`, the
operation `clear(response)` of the Session Transport, which expires the
cookie and is not an error for an absent cookie.  The call is recorded. -/
def cookiesClear (name : String) : Js Unit :=
  emit (Effect.cookieClear name)

/-- Modelled from the spec: the store of `#config/database.js` and
`#models/user.model.js`, a collaborator reached by an equality lookup on the
email.  The rows `select().from(users).where(eq(users.email, email)).limit(1)`
yields on a database: the first row with the email, if any. -/
def Db.findByEmail (db : Db) (email : String) : List UserRow :=
  (db.rows.filter (fun u => u.email = email)).take 1

/-- The query `db.select().from(users).where(eq(users.email, email)).limit(1)`. -/
def selectUserByEmail (email : String) : Js (List UserRow) := fun w =>
  (Except.ok (w.db.findByEmail email), w)

/-- The record `db.insert(users).values(..).returning(..)` yields. -/
structure NewUser where
  id : Nat
  name : String
  email : String
  role : String
  created_at : Nat
  deriving DecidableEq

/-- Modelled from the spec: the insert of the store of `#config/database.js`.
The statement `db.insert(users).values({ name, email, password, role })
.returning({ id, name, email, role, created_at })`: the database gives the
row its id and its creation time and returns the fields asked for. -/
def insertUser (now : Nat) (name email password role : String) : Js NewUser := fun w =>
  let row : UserRow :=
    { id := w.db.nextId, name := name, email := email, password := password, role := role,
      created_at := now }
  let returned : NewUser :=
    { id := row.id, name := row.name, email := row.email, role := row.role,
      created_at := row.created_at }
  (Except.ok returned,
    { w with db := { rows := w.db.rows ++ [row], nextId := w.db.nextId + 1 } })

/-! ## `src/utils/jwt.js` -/

/-- The constant `JWT_SECRET`: `process.env.JWT_SECRET || '<default>'`. -/
def JWT_SECRET (env : Env) : String :=
  match env.envJwtSecret with
  | some s => if s = "" then "default-secret-to-change-in-production" else s
  | none => "default-secret-to-change-in-production"

/-- The constant `JWT_EXPIRES_IN`. -/
def JWT_EXPIRES_IN : String := "1d"

/-- The function `jwttoken.sign(payload)`. -/
def jwttokenSign (env : Env) (payload : Claims) : Js String :=
  tryCatch
    (do
      emit (Effect.jwtSign payload JWT_EXPIRES_IN)
      liftExcept (env.jwtSign payload (JWT_SECRET env) JWT_EXPIRES_IN))
    (fun error => do
      logger "error" "Erreur lors de la signature du token JWT:" (Json.str (error.text))
      throwNew "Échec lors de la signature du token JWT")

/-! ## `src/services/auth.service.js` -/

/-- The function `hashPassword(password)`. -/
def hashPassword (env : Env) (password : String) : Js String :=
  tryCatch
    (liftExcept (env.bcryptHash password 10))
    (fun error => do
      logger "error" ("Erreur lors de la hachage du mot de passe : " ++ error.message) Json.null
      throwNew "Erreur lors de la hachage du mot de passe")

/-- The function `comparePassword(password, hashedPassword)`. -/
def comparePassword (env : Env) (password hashedPassword : String) : Js Bool :=
  tryCatch
    (liftExcept (env.bcryptCompare password hashedPassword))
    (fun error => do
      logger "error" ("Erreur lors de la comparaison du mot de passe : " ++ error.message) Json.null
      throwNew "Erreur lors de la comparaison du mot de passe")

/-- The function `createUser({ name, email, password, role = 'user' })`. -/
def createUser (env : Env) (name email password : String) (role : Option String) :
    Js NewUser :=
  let role := role.getD "user"
  tryCatch
    (do
      let existingUser ← selectUserByEmail email
      if existingUser.length > 0 then
        throwNew "Utilisateur déjà inscrit"
      let hashedPassword ← hashPassword env password
      let newUser ← insertUser env.now name email hashedPassword role
      logger "info" ("Nouvelle inscription de l'utilisateur " ++ email) Json.null
      return newUser)
    (fun error => do
      logger "error"
        ("Erreur lors de l'inscription de l'utilisateur " ++ email ++ " : " ++ error.text)
        Json.null
      throwNew "Erreur lors de l'inscription de l'utilisateur")

/-- The function `authenticateUser({ email, password })`. -/
def authenticateUser (env : Env) (email password : String) : Js UserRow :=
  tryCatch
    (do
      let existingUser ← selectUserByEmail email
      match existingUser with
      | [] => throwNew "Utilisateur non trouvé"
      | user :: _ =>
        let isPasswordValid ← comparePassword env password user.password
        if !isPasswordValid then
          throwNew "Mot de passe incorrect"
        logger "info" ("Authentification réussie pour l'utilisateur " ++ email) Json.null
        return user)
    (fun error => do
      logger "error"
        ("Erreur lors de l'authentification de l'utilisateur " ++ email ++ " : " ++
          error.text)
        Json.null
      throw error)

/-! ## `src/controllers/auth.controller.js` -/

/-- The character class `[a-zA-Z]`. -/
def isAsciiLetter (c : Char) : Bool :=
  ('a' ≤ c && c ≤ 'z') || ('A' ≤ c && c ≤ 'Z')

/-- The character class `[a-zA-Z0-9._%+-]`. -/
def isLocalChar (c : Char) : Bool :=
  isAsciiLetter c || ('0' ≤ c && c ≤ '9') || c = '.' || c = '_' || c = '%' || c = '+' || c = '-'

/-- The character class `[a-zA-Z0-9.-]`. -/
def isDomainChar (c : Char) : Bool :=
  isAsciiLetter c || ('0' ≤ c && c ≤ '9') || c = '.' || c = '-'

/-- The pattern `cls+` followed by the pattern `k`: a first character of the
class, then either more of them or the rest. -/
def plusThen (cls : Char → Bool) (k : List Char → Bool) : List Char → Bool
  | [] => false
  | c :: cs => cls c && (plusThen cls k cs || k cs)

/-- The pattern `[a-zA-Z]{2,}$`: two letters or more, up to the end. -/
def matchTld (cs : List Char) : Bool :=
  decide (2 ≤ cs.length) && cs.all isAsciiLetter

/-- The test `/^[a-zA-Z0-9._%+-]+@[a-zA-Z0-9.-]+\.[a-zA-Z]{2,}$/.test(email)`. -/
def isValidEmail (email : String) : Bool :=
  plusThen isLocalChar
    (fun afterLocal =>
      match afterLocal with
      | '@' :: domain =>
        plusThen isDomainChar
          (fun afterDomain =>
            match afterDomain with
            | '.' :: tld => matchTld tld
            | _ => false)
          domain
      | _ => false)
    email.toList

/-- The object `{ id, name, email, role }` both handlers put under `user`. -/
def userJson (id : Nat) (name email role : String) : Json :=
  Json.obj [("id", Json.num id), ("name", Json.str name), ("email", Json.str email),
    ("role", Json.str role)]

/-- The handler `signup(req, res, next)`. -/
def signup (env : Env) (req : Request) : Js Unit :=
  tryCatch
    (do
      match env.signupSchema req.body with
      | Except.error errors =>
        resStatusJson env.strict 400
          (Json.obj [("error", Json.str "Validation non aboutie"),
            ("details", Json.str (formatValidationError errors))])
      | Except.ok data =>
        if !isValidEmail data.email then
          logger "error" ("Email non valide : " ++ data.email) Json.null
          resStatusJson env.strict 400
            (Json.obj [("error", Json.str "Vous devez renseigner un email valide!")])
        else
          let newUser ← createUser env data.name data.email data.password data.role
          let token ← jwttokenSign env
            { id := newUser.id, email := newUser.email, role := newUser.role }
          cookiesSet "token" token
          logger "info"
            ("Nouvel utilisateur inscrit : " ++ data.name ++ " (" ++ data.email ++ ")") Json.null
          resStatusJson env.strict 201
            (Json.obj [("message", Json.str "Utilisateur inscrit avec succès"),
              ("user", userJson newUser.id newUser.name newUser.email newUser.role)]))
    (fun error => do
      logger "error" "Erreur lors de l'inscription" (Json.str (error.text))
      if error.message = "Utilisateur déjà inscrit" then
        resStatusJson env.strict 409 (Json.obj [("error", Json.str "Utilisateur déjà inscrit")])
      else
        next (some error.message))

/-- The handler `signin(req, res, next)`. -/
def signin (env : Env) (req : Request) : Js Unit :=
  tryCatch
    (do
      match env.signinSchema req.body with
      | Except.error errors =>
        resStatusJson env.strict 400
          (Json.obj [("error", Json.str "Validation non aboutie"),
            ("details", Json.str (formatValidationError errors))])
      | Except.ok data =>
        let user ← authenticateUser env data.email data.password
        let token ← jwttokenSign env { id := user.id, email := user.email, role := user.role }
        cookiesSet "token" token
        logger "info" ("Utilisateur connecté : " ++ data.email) Json.null
        resStatusJson env.strict 200
          (Json.obj [("message", Json.str "Connexion réussie"),
            ("user", userJson user.id user.name user.email user.role)]))
    (fun error => do
      logger "error" "Erreur lors de la connexion" (Json.str (error.text))
      if error.message = "Utilisateur non trouvé" || error.message = "Mot de passe incorrect" then
        resStatusJson env.strict 401 (Json.obj [("error", Json.str "Identifiants invalides")])
      else
        next (some error.message))

/-- The handler `signout(req, res, next)`.  A cookie value is falsy when it
is absent or empty. -/
def signout (env : Env) (req : Request) : Js Unit :=
  tryCatch
    (do
      let token ← cookiesGet req
      if token.isSome && token != some "" then
        cookiesClear "token"
        logger "info" "Utilisateur déconnecté" Json.null
      else
        logger "info" "Aucun token trouvé lors de la déconnexion" Json.null
      resStatusJson env.strict 200 (Json.obj [("message", Json.str "Déconnexion réussie")]))
    (fun error => do
      logger "error" "Erreur lors de la déconnexion" (Json.str (error.text))
      next (some error.message))

/-! ## Observations on a trace -/

/-- The responses sent: the calls `res.status(..).json(..)` that went
through, in order. -/
def responses : List Effect → List (Nat × Json)
  | [] => []
  | Effect.respond status body :: rest => (status, body) :: responses rest
  | _ :: rest => responses rest

/-- The number of calls of `next`. -/
def nextCalls : List Effect → Nat
  | [] => 0
  | Effect.next _ :: rest => nextCalls rest + 1
  | _ :: rest => nextCalls rest

/-- The warn-level log records, in order: message and data. -/
def warnings : List Effect → List (String × Json)
  | [] => []
  | Effect.log level msg data :: rest =>
    if level = "warn" then (msg, data) :: warnings rest else warnings rest
  | _ :: rest => warnings rest

/-- The rules `client.protect` was called with, in order. -/
def protectCalls : List Effect → List Rule
  | [] => []
  | Effect.protect rule :: rest => rule :: protectCalls rest
  | _ :: rest => protectCalls rest

/-- The cookies set: the calls `cookies.set(res, name, value)`, in order. -/
def cookieSets : List Effect → List (String × String)
  | [] => []
  | Effect.cookieSet name value :: rest => (name, value) :: cookieSets rest
  | _ :: rest => cookieSets rest

/-- The cookies cleared: the calls `cookies.clear(res, name)`, in order. -/
def cookieClears : List Effect → List String
  | [] => []
  | Effect.cookieClear name :: rest => name :: cookieClears rest
  | _ :: rest => cookieClears rest

/-- The payloads `jwt.sign` was called with, in order. -/
def jwtSigns : List Effect → List Claims
  | [] => []
  | Effect.jwtSign payload _ :: rest => payload :: jwtSigns rest
  | _ :: rest => jwtSigns rest

/-- The arguments of the calls of `next`, in order. -/
def nextArgs : List Effect → List (Option String)
  | [] => []
  | Effect.next err :: rest => err :: nextArgs rest
  | _ :: rest => nextArgs rest

/-! ## Sample inputs -/

/-- A request of an anonymous client. -/
def guestRequest : Request :=
  { userRole := none, ip := some "203.0.113.7", userAgent := some "curl/8.0",
    path := "/api/auth/sign-in", method := "POST", tokenCookie := none, body := Json.null }

/-- A decision denied because of a bot. -/
def botDecision : Decision :=
  { isDenied := true, isBot := true, isShield := false, isRateLimit := false, text := "DENY" }

/-- A decision denied because of the rate limit. -/
def rateLimitDecision : Decision :=
  { isDenied := true, isBot := false, isShield := false, isRateLimit := true, text := "DENY" }

/-- A decision that allows the request. -/
def allowDecision : Decision :=
  { isDenied := false, isBot := false, isShield := false, isRateLimit := false, text := "ALLOW" }

/-- A decision denied because of the shield. -/
def shieldDecision : Decision :=
  { isDenied := true, isBot := false, isShield := true, isRateLimit := false, text := "DENY" }

/-- Whether at most one of the three tests on the reason holds, as for an
Arcjet reason, which has one type. -/
def Decision.oneReason (decision : Decision) : Bool :=
  !(decision.isBot && decision.isShield) && !(decision.isBot && decision.isRateLimit) &&
    !(decision.isShield && decision.isRateLimit)

/-- The response first match wins gives: that of the first denial test that
holds in the order bot, shield, rate limit, and none when the decision is not
denied or no test holds. -/
def firstDenialResponse (decision : Decision) : List (Nat × Json) :=
  if decision.isDenied && decision.isBot then
    [(403, Json.obj [("error", Json.str "Forbidden"),
      ("message", Json.str "Automated requests are not allowed.")])]
  else if decision.isDenied && decision.isShield then
    [(403, Json.obj [("error", Json.str "Forbidden"),
      ("message", Json.str "Request blocked by security policy.")])]
  else if decision.isDenied && decision.isRateLimit then
    [(403, Json.obj [("error", Json.str "Forbidden"),
      ("message", Json.str "Too many requests. Please try again later.")])]
  else
    []

/-- The responses of the denial branches whose test holds, in the order of
the source: bot, shield, rate limit. -/
def denialResponses (decision : Decision) : List (Nat × Json) :=
  (if decision.isDenied && decision.isBot then
      [(403, Json.obj [("error", Json.str "Forbidden"),
        ("message", Json.str "Automated requests are not allowed.")])]
    else []) ++
  (if decision.isDenied && decision.isShield then
      [(403, Json.obj [("error", Json.str "Forbidden"),
        ("message", Json.str "Request blocked by security policy.")])]
    else []) ++
  (if decision.isDenied && decision.isRateLimit then
      [(403, Json.obj [("error", Json.str "Forbidden"),
        ("message", Json.str "Too many requests. Please try again later.")])]
    else [])

/-- The empty database. -/
def emptyDb : Db := { rows := [], nextId := 1 }

/-- A stored user. -/
def adaRow : UserRow :=
  { id := 1, name := "Ada", email := "ada@example.com", password := "hash:secret1",
    role := "user", created_at := 0 }

/-- A database holding one user. -/
def adaDb : Db := { rows := [adaRow], nextId := 2 }

/-- Collaborators that work: a toy hash, a toy token, schemas that read the
body as an object of strings. -/
def sampleEnv : Env :=
  { strict := true,
    bcryptHash := fun password _ => Except.ok ("hash:" ++ password),
    bcryptCompare := fun password hashed => Except.ok (decide (hashed = "hash:" ++ password)),
    jwtSign := fun payload _ _ => Except.ok ("token:" ++ payload.email),
    envJwtSecret := none,
    signupSchema := fun body =>
      match body with
      | Json.obj [("name", Json.str name), ("email", Json.str email),
          ("password", Json.str password)] =>
        Except.ok { name := name, email := email, password := password, role := none }
      | _ => Except.error (ValidationErrors.issues ["Invalid input"]),
    signinSchema := fun body =>
      match body with
      | Json.obj [("email", Json.str email), ("password", Json.str password)] =>
        Except.ok { email := email, password := password }
      | _ => Except.error (ValidationErrors.issues ["Invalid input"]),
    now := 0 }

/-- A request with this body and no cookie. -/
def postRequest (path : String) (body : Json) : Request :=
  { userRole := none, ip := some "203.0.113.7", userAgent := some "curl/8.0",
    path := path, method := "POST", tokenCookie := none, body := body }

/-- A signup of the email of the stored user. -/
def adaSignup : Request :=
  postRequest "/api/auth/sign-up"
    (Json.obj [("name", Json.str "Ada"), ("email", Json.str "ada@example.com"),
      ("password", Json.str "secret1")])

/-- A signup of an email no user has. -/
def bobSignup : Request :=
  postRequest "/api/auth/sign-up"
    (Json.obj [("name", Json.str "Bob"), ("email", Json.str "bob@example.com"),
      ("password", Json.str "secret2")])

/-- The body of the response to `bobSignup` on `adaDb`. -/
def bobCreatedBody : Json :=
  Json.obj [("message", Json.str "Utilisateur inscrit avec succès"),
    ("user", Json.obj [("id", Json.num 2), ("name", Json.str "Bob"),
      ("email", Json.str "bob@example.com"), ("role", Json.str "user")])]

/-- The body of the response to `adaSignin` on `adaDb`. -/
def adaSignedInBody : Json :=
  Json.obj [("message", Json.str "Connexion réussie"),
    ("user", Json.obj [("id", Json.num 1), ("name", Json.str "Ada"),
      ("email", Json.str "ada@example.com"), ("role", Json.str "user")])]

/-- A signin of the stored user with the right password. -/
def adaSignin : Request :=
  postRequest "/api/auth/sign-in"
    (Json.obj [("email", Json.str "ada@example.com"), ("password", Json.str "secret1")])

/-- A signin of the stored user with a wrong password. -/
def adaWrongSignin : Request :=
  postRequest "/api/auth/sign-in"
    (Json.obj [("email", Json.str "ada@example.com"), ("password", Json.str "guess")])

/-- A signin of an email no user has. -/
def bobSignin : Request :=
  postRequest "/api/auth/sign-in"
    (Json.obj [("email", Json.str "bob@example.com"), ("password", Json.str "guess")])


/-! ## Lemmas -/

/-- The middleware reads its Arcjet client only at the rule it built. -/
theorem securityMiddleware_protect_at_rule (strict : Bool)
    (protect : Rule → Request → Except JsError Decision) (req : Request) (db : Db) :
    run (securityMiddleware strict protect req) db =
      run (securityMiddleware strict (fun _ _ => protect (ruleOf req) req) req) db :=
  rfl

/-- The limit of the `switch`, case by case. -/
theorem limitOf_fst (role : String) :
    (limitOf role).1 = if role = "admin" then 100 else if role = "user" then 50 else 10 := by
  unfold limitOf
  split
  · rfl
  · split <;> rfl

/-- The lookup finds nothing when no row has the email. -/
theorem findByEmail_eq_nil (db : Db) (email : String)
    (h : ∀ u ∈ db.rows, u.email ≠ email) : db.findByEmail email = [] := by
  have hf : db.rows.filter (fun u => decide (u.email = email)) = [] := by
    rw [List.filter_eq_nil_iff]
    intro u hu
    simpa using h u hu
  simp [Db.findByEmail, hf]

/-! ## The admission middleware -/

/-- C1 (the code at the failing input): for a decision denied because of a
bot, whatever the request, the middleware sends the 403 response of the bot
branch and then calls `next()` all the same, once. -/
theorem securityMiddleware_bot_denied_calls_next (strict : Bool) (req : Request) (db : Db) :
    responses (run (securityMiddleware strict (fun _ _ => Except.ok botDecision) req) db).2.trace =
      [(403, Json.obj [("error", Json.str "Forbidden"),
        ("message", Json.str "Automated requests are not allowed.")])] ∧
    nextArgs (run (securityMiddleware strict (fun _ _ => Except.ok botDecision) req) db).2.trace =
      [none] := by
  cases strict <;> exact ⟨rfl, rfl⟩

/-- C2: when `client.protect` throws, the middleware sends exactly one
response, with status 500, never calls `next`, and ends normally. -/
theorem securityMiddleware_fail_closed (strict : Bool)
    (protect : Rule → Request → Except JsError Decision) (req : Request) (db : Db) (e : JsError)
    (h : protect (ruleOf req) req = Except.error e) :
    responses (run (securityMiddleware strict protect req) db).2.trace =
      [(500, Json.obj [("error", Json.str "Forbidden"),
        ("message", Json.str "Erreur survenue lors de la vérification de la sécurité.")])] ∧
    nextCalls (run (securityMiddleware strict protect req) db).2.trace = 0 ∧
    (run (securityMiddleware strict protect req) db).1 = Except.ok () := by
  rw [securityMiddleware_protect_at_rule, h]
  exact ⟨rfl, rfl, rfl⟩

/-- C2 at a concrete input: a client that always throws. -/
theorem securityMiddleware_fail_closed_witness :
    responses (run (securityMiddleware true (fun _ _ => Except.error (JsError.ofMessage "Arcjet unreachable"))
        guestRequest) emptyDb).2.trace =
      [(500, Json.obj [("error", Json.str "Forbidden"),
        ("message", Json.str "Erreur survenue lors de la vérification de la sécurité.")])] ∧
    nextCalls (run (securityMiddleware true (fun _ _ => Except.error (JsError.ofMessage "Arcjet unreachable"))
        guestRequest) emptyDb).2.trace = 0 ∧
    (run (securityMiddleware true (fun _ _ => Except.error (JsError.ofMessage "Arcjet unreachable"))
        guestRequest) emptyDb).1 = Except.ok () :=
  securityMiddleware_fail_closed true (fun _ _ => Except.error (JsError.ofMessage "Arcjet unreachable"))
    guestRequest emptyDb (JsError.ofMessage "Arcjet unreachable") rfl

/-- C6: on an Express response, for every decision the client returns, and
on any response for every decision whose reason passes at most one of the
three tests, the middleware sends at most one response: the 403 of the first
test that holds in the order bot, shield, rate limit when the decision is
denied, and none otherwise. -/
theorem securityMiddleware_first_flag_single_response (strict : Bool)
    (protect : Rule → Request → Except JsError Decision) (req : Request) (db : Db)
    (decision : Decision)
    (h : protect (ruleOf req) req = Except.ok decision)
    (hOne : strict = true ∨ decision.oneReason = true) :
    responses (run (securityMiddleware strict protect req) db).2.trace =
      firstDenialResponse decision ∧
    (responses (run (securityMiddleware strict protect req) db).2.trace).length ≤ 1 := by
  rw [securityMiddleware_protect_at_rule, h]
  obtain ⟨denied, bot, shield, rateLimit, text⟩ := decision
  cases strict <;> cases denied <;> cases bot <;> cases shield <;> cases rateLimit <;>
    first
      | exact ⟨rfl, Nat.le_refl 1⟩
      | exact ⟨rfl, Nat.zero_le 1⟩
      | (exfalso; simp [Decision.oneReason] at hOne)

/-- C6 at concrete inputs: a bot denial on an Express response and a rate
limit denial on a recording response. -/
theorem securityMiddleware_first_flag_single_response_witness :
    (responses (run (securityMiddleware true (fun _ _ => Except.ok botDecision) guestRequest)
        emptyDb).2.trace = firstDenialResponse botDecision ∧
      (responses (run (securityMiddleware true (fun _ _ => Except.ok botDecision) guestRequest)
        emptyDb).2.trace).length ≤ 1) ∧
    (responses (run (securityMiddleware false (fun _ _ => Except.ok rateLimitDecision)
        guestRequest) emptyDb).2.trace = firstDenialResponse rateLimitDecision ∧
      (responses (run (securityMiddleware false (fun _ _ => Except.ok rateLimitDecision)
        guestRequest) emptyDb).2.trace).length ≤ 1) :=
  ⟨securityMiddleware_first_flag_single_response true (fun _ _ => Except.ok botDecision)
      guestRequest emptyDb botDecision rfl (Or.inl rfl),
    securityMiddleware_first_flag_single_response false
      (fun _ _ => Except.ok rateLimitDecision) guestRequest emptyDb rateLimitDecision rfl
      (Or.inr rfl)⟩

/-- C7: whatever the client answers, the middleware calls it once, with the
rule of mode LIVE, interval one minute, name `<role>_rate_limit` and a maximum
of 100 for the role admin, 50 for the role user and 10 for every other role,
where the role is that of the user of the request, or guest when the request
has no user, no role or an empty role. -/
theorem securityMiddleware_quota_by_role (strict : Bool)
    (protect : Rule → Request → Except JsError Decision) (req : Request) (db : Db) :
    protectCalls (run (securityMiddleware strict protect req) db).2.trace =
      [{ mode := "LIVE", interval := "1m",
         max := if roleOf req = "admin" then 100 else if roleOf req = "user" then 50 else 10,
         name := roleOf req ++ "_rate_limit" }] ∧
    roleOf req =
      (match req.userRole with
        | none => "guest"
        | some r => if r = "" then "guest" else r) := by
  refine ⟨?_, by cases h : req.userRole <;> simp [roleOf, h]⟩
  have hrule : ruleOf req =
      { mode := "LIVE", interval := "1m",
        max := if roleOf req = "admin" then 100 else if roleOf req = "user" then 50 else 10,
        name := roleOf req ++ "_rate_limit" } := by
    simp [ruleOf, limitOf_fst]
  rw [← hrule, securityMiddleware_protect_at_rule]
  generalize protect (ruleOf req) req = answer
  cases answer with
  | error e => rfl
  | ok decision =>
    obtain ⟨denied, bot, shield, rateLimit, text⟩ := decision
    cases strict <;> cases denied <;> cases bot <;> cases shield <;> cases rateLimit <;> rfl

/-- C10 (the code at the failing input): for a decision denied because of a
bot, and for one denied because of the rate limit, the one warn-level record
holds the ip, the user agent and the path of the request, and no method. -/
theorem securityMiddleware_warning_without_method (strict : Bool) (req : Request) (db : Db) :
    warnings (run (securityMiddleware strict (fun _ _ => Except.ok botDecision) req) db).2.trace =
      [("Bot request detected.",
        Json.obj [("ip", Json.ofOption req.ip), ("userAgent", Json.ofOption req.userAgent),
          ("path", Json.str req.path)])] ∧
    warnings (run (securityMiddleware strict (fun _ _ => Except.ok rateLimitDecision) req)
        db).2.trace =
      [("Rate limit request detected.",
        Json.obj [("ip", Json.ofOption req.ip), ("userAgent", Json.ofOption req.userAgent),
          ("path", Json.str req.path)])] := by
  cases strict <;> exact ⟨rfl, rfl⟩


/-! ## The credential service and the handlers -/

/-- C3 (the code at the failing input): on a database that holds a user with
the email, `createUser` fails with the message of its own `catch`, not with
the message of the duplicate it threw inside the `try`; so does the second of
two calls in a row with one email. -/
theorem createUser_existing_email_generic_error (env : Env) (name password : String)
    (role : Option String) :
    (run (createUser env name "ada@example.com" password role) adaDb).1 =
      Except.error (JsError.ofMessage "Erreur lors de l'inscription de l'utilisateur") ∧
    (run (do
        let _ ← createUser sampleEnv "Ada" "ada@example.com" "secret1" none
        createUser sampleEnv "Ada" "ada@example.com" "secret2" none) emptyDb).1 =
      Except.error (JsError.ofMessage "Erreur lors de l'inscription de l'utilisateur") := by
  constructor
  · simp [run, createUser, selectUserByEmail, Db.findByEmail, adaDb, adaRow, World.init, bind,
      Js.bind, tryCatch, tryCatchThe, MonadExcept.tryCatch, Js.tryCatch, throw, throwThe,
      MonadExcept.throw, Js.throw, throwNew, JsError.ofMessage, emit, logger]
  · simp [run, createUser, hashPassword, insertUser, selectUserByEmail, Db.findByEmail, emptyDb,
      sampleEnv, World.init, bind, Js.bind, pure, Js.pure, tryCatch, tryCatchThe,
      MonadExcept.tryCatch, Js.tryCatch, throw, throwThe, MonadExcept.throw, Js.throw, throwNew, JsError.ofMessage, emit,
      logger, liftExcept]

/-- C4 (the code at the failing input): a valid signup of the email of a
stored user sends no response; the handler passes the error of `createUser`
to `next`. -/
theorem signup_existing_email_goes_to_next :
    responses (run (signup sampleEnv adaSignup) adaDb).2.trace = [] ∧
    nextArgs (run (signup sampleEnv adaSignup) adaDb).2.trace =
      [some "Erreur lors de l'inscription de l'utilisateur"] := by
  simp [run, signup, createUser, selectUserByEmail, Db.findByEmail, adaDb, adaRow, adaSignup,
    postRequest, sampleEnv, isValidEmail, plusThen, matchTld, isLocalChar, isDomainChar,
    isAsciiLetter, World.init, bind, Js.bind, tryCatch, tryCatchThe, MonadExcept.tryCatch,
    Js.tryCatch, throw, throwThe, MonadExcept.throw, Js.throw, throwNew, JsError.ofMessage, emit, logger, next, responses,
    nextArgs]


/-- C5: on one database and for two bodies that pass the signin validation,
the signin of an email no user has and the signin of a user with a password
that `bcrypt.compare` finds not to match send the same single response, status
401 with the body `error: 'Identifiants invalides'`; neither sets a cookie,
neither signs a token, neither calls `next`. -/
theorem signin_denials_indistinguishable (env : Env) (db : Db) (reqA reqB : Request)
    (dataA dataB : SigninData) (user : UserRow)
    (hA : env.signinSchema reqA.body = Except.ok dataA)
    (hB : env.signinSchema reqB.body = Except.ok dataB)
    (hUnknown : ∀ u ∈ db.rows, u.email ≠ dataA.email)
    (hKnown : db.findByEmail dataB.email = [user])
    (hWrong : env.bcryptCompare dataB.password user.password = Except.ok false) :
    responses (run (signin env reqA) db).2.trace =
      [(401, Json.obj [("error", Json.str "Identifiants invalides")])] ∧
    responses (run (signin env reqB) db).2.trace =
      [(401, Json.obj [("error", Json.str "Identifiants invalides")])] ∧
    cookieSets (run (signin env reqA) db).2.trace = [] ∧
    cookieSets (run (signin env reqB) db).2.trace = [] ∧
    jwtSigns (run (signin env reqA) db).2.trace = [] ∧
    jwtSigns (run (signin env reqB) db).2.trace = [] ∧
    nextCalls (run (signin env reqA) db).2.trace = 0 ∧
    nextCalls (run (signin env reqB) db).2.trace = 0 := by
  have hNone := findByEmail_eq_nil db dataA.email hUnknown
  simp [run, signin, authenticateUser, comparePassword, selectUserByEmail, World.init, hA, hB,
    hNone, hKnown, hWrong, bind, Js.bind, pure, Js.pure, tryCatch, tryCatchThe,
    MonadExcept.tryCatch, Js.tryCatch, throw, throwThe, MonadExcept.throw, Js.throw, throwNew, JsError.ofMessage, emit,
    logger, liftExcept, resStatusJson, responses, cookieSets, jwtSigns, nextCalls]

/-- C5 at a concrete input: an unknown email and a wrong password on the
database of one user. -/
theorem signin_denials_indistinguishable_witness :
    responses (run (signin sampleEnv bobSignin) adaDb).2.trace =
      [(401, Json.obj [("error", Json.str "Identifiants invalides")])] ∧
    responses (run (signin sampleEnv adaWrongSignin) adaDb).2.trace =
      [(401, Json.obj [("error", Json.str "Identifiants invalides")])] ∧
    cookieSets (run (signin sampleEnv bobSignin) adaDb).2.trace = [] ∧
    cookieSets (run (signin sampleEnv adaWrongSignin) adaDb).2.trace = [] ∧
    jwtSigns (run (signin sampleEnv bobSignin) adaDb).2.trace = [] ∧
    jwtSigns (run (signin sampleEnv adaWrongSignin) adaDb).2.trace = [] ∧
    nextCalls (run (signin sampleEnv bobSignin) adaDb).2.trace = 0 ∧
    nextCalls (run (signin sampleEnv adaWrongSignin) adaDb).2.trace = 0 :=
  signin_denials_indistinguishable sampleEnv adaDb bobSignin adaWrongSignin
    { email := "bob@example.com", password := "guess" }
    { email := "ada@example.com", password := "guess" } adaRow rfl rfl
    (by simp [adaDb, adaRow]) (by simp [Db.findByEmail, adaDb, adaRow])
    (by simp [sampleEnv, adaRow])

/-- C8: the signout handler sends one response, status 200 with the body
`message: 'Déconnexion réussie'`, whatever cookie the request carries, never
calls `next`, and clears no cookie when the request has no token cookie. -/
theorem signout_same_response (env : Env) (req : Request) (db : Db) :
    responses (run (signout env req) db).2.trace =
      [(200, Json.obj [("message", Json.str "Déconnexion réussie")])] ∧
    responses (run (signout env req) db).2.trace =
      responses (run (signout env { req with tokenCookie := none }) db).2.trace ∧
    cookieClears (run (signout env { req with tokenCookie := none }) db).2.trace = [] ∧
    nextCalls (run (signout env req) db).2.trace = 0 := by
  cases hc : req.tokenCookie with
  | none =>
    simp [run, signout, cookiesGet, cookiesClear, World.init, hc, bind, Js.bind, pure, Js.pure,
      tryCatch, tryCatchThe, MonadExcept.tryCatch, Js.tryCatch, emit, logger, resStatusJson,
      responses, cookieClears, nextCalls]
  | some token =>
    by_cases ht : token = ""
    · simp [run, signout, cookiesGet, cookiesClear, World.init, hc, ht, bind, Js.bind, pure,
        Js.pure, tryCatch, tryCatchThe, MonadExcept.tryCatch, Js.tryCatch, emit, logger,
        resStatusJson, responses, cookieClears, nextCalls]
    · simp [run, signout, cookiesGet, cookiesClear, World.init, hc, ht, bind, Js.bind, pure,
        Js.pure, tryCatch, tryCatchThe, MonadExcept.tryCatch, Js.tryCatch, emit, logger,
        resStatusJson, responses, cookieClears, nextCalls]


/-- C9: a response of status 201 of the signup handler has the body `message`
and `user`, where `user` holds the id, name, email and role of the row the
handler inserted, and nothing else; a response of status 200 of the signin
handler has the body `message` and `user`, where `user` holds the id, name,
email and role of the row the lookup by email returned, and nothing else.
The stored hash and the creation time are in neither body. -/
theorem success_body_is_public_user (env : Env) (req : Request) (db : Db) (body : Json) :
    ((201, body) ∈ responses (run (signup env req) db).2.trace →
      ∃ row : UserRow,
        (run (signup env req) db).2.db.rows = db.rows ++ [row] ∧
        body = Json.obj [("message", Json.str "Utilisateur inscrit avec succès"),
          ("user", Json.obj [("id", Json.num row.id), ("name", Json.str row.name),
            ("email", Json.str row.email), ("role", Json.str row.role)])]) ∧
    ((200, body) ∈ responses (run (signin env req) db).2.trace →
      ∃ data : SigninData, ∃ user : UserRow,
        env.signinSchema req.body = Except.ok data ∧
        db.findByEmail data.email = user :: [] ∧
        body = Json.obj [("message", Json.str "Connexion réussie"),
          ("user", Json.obj [("id", Json.num user.id), ("name", Json.str user.name),
            ("email", Json.str user.email), ("role", Json.str user.role)])]) := by
  constructor
  · intro h
    cases hv : env.signupSchema req.body with
    | error errors =>
      simp [run, signup, World.init, hv, bind, Js.bind, tryCatch, tryCatchThe,
        MonadExcept.tryCatch, Js.tryCatch, emit, resStatusJson, responses] at h
    | ok data =>
      cases hm : isValidEmail data.email with
      | false =>
        simp [run, signup, World.init, hv, hm, bind, Js.bind, tryCatch, tryCatchThe,
          MonadExcept.tryCatch, Js.tryCatch, emit, logger, resStatusJson, responses] at h
      | true =>
        cases hf : db.findByEmail data.email with
        | cons found rest =>
          simp [run, signup, createUser, selectUserByEmail, World.init, hv, hm, hf, bind,
            Js.bind, tryCatch, tryCatchThe, MonadExcept.tryCatch, Js.tryCatch, throw, throwThe,
            MonadExcept.throw, Js.throw, throwNew, JsError.ofMessage, emit, logger, next, resStatusJson, responses] at h
        | nil =>
          cases hh : env.bcryptHash data.password 10 with
          | error e =>
            simp [run, signup, createUser, hashPassword, selectUserByEmail, World.init, hv, hm,
              hf, hh, bind, Js.bind, tryCatch, tryCatchThe, MonadExcept.tryCatch, Js.tryCatch,
              throw, throwThe, MonadExcept.throw, Js.throw, throwNew, JsError.ofMessage, emit, logger, liftExcept, next,
              resStatusJson, responses] at h
          | ok hashed =>
            cases hs : env.jwtSign
                { id := db.nextId, email := data.email, role := data.role.getD "user" }
                (JWT_SECRET env) JWT_EXPIRES_IN with
            | error e =>
              simp [run, signup, createUser, hashPassword, insertUser, jwttokenSign,
                selectUserByEmail, World.init, hv, hm, hf, hh, hs, bind, Js.bind, pure, Js.pure,
                tryCatch, tryCatchThe, MonadExcept.tryCatch, Js.tryCatch, throw, throwThe,
                MonadExcept.throw, Js.throw, throwNew, JsError.ofMessage, emit, logger, liftExcept, next, resStatusJson,
                responses] at h
            | ok token =>
              refine ⟨UserRow.mk db.nextId data.name data.email hashed (data.role.getD "user")
                env.now, ?_⟩
              simp [run, signup, createUser, hashPassword, insertUser, jwttokenSign, cookiesSet,
                selectUserByEmail, userJson, World.init, hv, hm, hf, hh, hs, bind, Js.bind, pure,
                Js.pure, tryCatch, tryCatchThe, MonadExcept.tryCatch, Js.tryCatch, throw,
                throwThe, MonadExcept.throw, Js.throw, throwNew, JsError.ofMessage, emit, logger, liftExcept, next,
                resStatusJson, responses] at h ⊢
              exact h
  · intro h
    cases hv : env.signinSchema req.body with
    | error errors =>
      simp [run, signin, World.init, hv, bind, Js.bind, tryCatch, tryCatchThe,
        MonadExcept.tryCatch, Js.tryCatch, emit, resStatusJson, responses] at h
    | ok data =>
      cases hf : db.findByEmail data.email with
      | nil =>
        simp [run, signin, authenticateUser, selectUserByEmail, World.init, hv, hf, bind,
          Js.bind, tryCatch, tryCatchThe, MonadExcept.tryCatch, Js.tryCatch, throw, throwThe,
          MonadExcept.throw, Js.throw, throwNew, JsError.ofMessage, emit, logger, next, resStatusJson, responses] at h
      | cons user rest =>
        have hrest : rest = [] := by
          have hlen : (db.findByEmail data.email).length ≤ 1 := by
            simp [Db.findByEmail]
          rw [hf] at hlen
          simpa using hlen
        subst hrest
        cases hc : env.bcryptCompare data.password user.password with
        | error e =>
          simp [run, signin, authenticateUser, comparePassword, selectUserByEmail, World.init,
            hv, hf, hc, bind, Js.bind, tryCatch, tryCatchThe, MonadExcept.tryCatch, Js.tryCatch,
            throw, throwThe, MonadExcept.throw, Js.throw, throwNew, JsError.ofMessage, emit, logger, liftExcept, next,
            resStatusJson, responses] at h
        | ok valid =>
          cases valid with
          | false =>
            simp [run, signin, authenticateUser, comparePassword, selectUserByEmail, World.init,
              hv, hf, hc, bind, Js.bind, pure, Js.pure, tryCatch, tryCatchThe,
              MonadExcept.tryCatch, Js.tryCatch, throw, throwThe, MonadExcept.throw, Js.throw, throwNew, JsError.ofMessage,
              emit, logger, liftExcept, next, resStatusJson, responses] at h
          | true =>
            cases hs : env.jwtSign { id := user.id, email := user.email, role := user.role }
                (JWT_SECRET env) JWT_EXPIRES_IN with
            | error e =>
              simp [run, signin, authenticateUser, comparePassword, jwttokenSign,
                selectUserByEmail, World.init, hv, hf, hc, hs, bind, Js.bind, pure, Js.pure,
                tryCatch, tryCatchThe, MonadExcept.tryCatch, Js.tryCatch, throw, throwThe,
                MonadExcept.throw, Js.throw, throwNew, JsError.ofMessage, emit, logger, liftExcept, next, resStatusJson,
                responses] at h
            | ok token =>
              refine ⟨data, user, rfl, hf, ?_⟩
              simp [run, signin, authenticateUser, comparePassword, jwttokenSign, cookiesSet,
                selectUserByEmail, userJson, World.init, hv, hf, hc, hs, bind, Js.bind, pure,
                Js.pure, tryCatch, tryCatchThe, MonadExcept.tryCatch, Js.tryCatch, throw,
                throwThe, MonadExcept.throw, Js.throw, throwNew, JsError.ofMessage, emit, logger, liftExcept, next,
                resStatusJson, responses] at h
              exact h


/-- C9 at a concrete input: the signup of a new user and the signin of the
stored user succeed, with these bodies. -/
theorem success_body_is_public_user_witness :
    (201, bobCreatedBody) ∈ responses (run (signup sampleEnv bobSignup) adaDb).2.trace ∧
    (∃ row : UserRow,
      (run (signup sampleEnv bobSignup) adaDb).2.db.rows = adaDb.rows ++ [row] ∧
      bobCreatedBody = Json.obj [("message", Json.str "Utilisateur inscrit avec succès"),
        ("user", Json.obj [("id", Json.num row.id), ("name", Json.str row.name),
          ("email", Json.str row.email), ("role", Json.str row.role)])]) ∧
    (200, adaSignedInBody) ∈ responses (run (signin sampleEnv adaSignin) adaDb).2.trace ∧
    (∃ data : SigninData, ∃ user : UserRow,
      sampleEnv.signinSchema adaSignin.body = Except.ok data ∧
      adaDb.findByEmail data.email = user :: [] ∧
      adaSignedInBody = Json.obj [("message", Json.str "Connexion réussie"),
        ("user", Json.obj [("id", Json.num user.id), ("name", Json.str user.name),
          ("email", Json.str user.email), ("role", Json.str user.role)])]) := by
  have hUp : (201, bobCreatedBody) ∈ responses (run (signup sampleEnv bobSignup) adaDb).2.trace := by
    simp [run, signup, createUser, hashPassword, insertUser, jwttokenSign, cookiesSet,
      selectUserByEmail, Db.findByEmail, userJson, adaDb, adaRow, bobSignup, bobCreatedBody,
      postRequest, sampleEnv, isValidEmail, plusThen, matchTld, isLocalChar, isDomainChar,
      isAsciiLetter, World.init, bind, Js.bind, pure, Js.pure, tryCatch, tryCatchThe,
      MonadExcept.tryCatch, Js.tryCatch, emit, logger, liftExcept, resStatusJson, responses]
  have hIn : (200, adaSignedInBody) ∈ responses (run (signin sampleEnv adaSignin) adaDb).2.trace := by
    simp [run, signin, authenticateUser, comparePassword, jwttokenSign, cookiesSet,
      selectUserByEmail, Db.findByEmail, userJson, adaDb, adaRow, adaSignin, adaSignedInBody,
      postRequest, sampleEnv, World.init, bind, Js.bind, pure, Js.pure, tryCatch, tryCatchThe,
      MonadExcept.tryCatch, Js.tryCatch, emit, logger, liftExcept, resStatusJson, responses]
  exact ⟨hUp, (success_body_is_public_user sampleEnv bobSignup adaDb bobCreatedBody).1 hUp,
    hIn, (success_body_is_public_user sampleEnv adaSignin adaDb adaSignedInBody).2 hIn⟩


/-! ## Further properties of the code -/

/-- X1: for a decision that is not denied the middleware sends no response,
writes no warning and calls `next()` once, without argument. -/
theorem securityMiddleware_allowed_calls_next_once (strict : Bool)
    (protect : Rule → Request → Except JsError Decision) (req : Request) (db : Db)
    (decision : Decision)
    (h : protect (ruleOf req) req = Except.ok decision)
    (hAllowed : decision.isDenied = false) :
    responses (run (securityMiddleware strict protect req) db).2.trace = [] ∧
    warnings (run (securityMiddleware strict protect req) db).2.trace = [] ∧
    nextArgs (run (securityMiddleware strict protect req) db).2.trace = [none] ∧
    (run (securityMiddleware strict protect req) db).1 = Except.ok () := by
  rw [securityMiddleware_protect_at_rule, h]
  obtain ⟨denied, bot, shield, rateLimit, text⟩ := decision
  simp only at hAllowed
  subst hAllowed
  exact ⟨rfl, rfl, rfl, rfl⟩

/-- X1 at a concrete input: a client that allows. -/
theorem securityMiddleware_allowed_calls_next_once_witness :
    responses (run (securityMiddleware true (fun _ _ => Except.ok allowDecision) guestRequest)
      emptyDb).2.trace = [] ∧
    warnings (run (securityMiddleware true (fun _ _ => Except.ok allowDecision) guestRequest)
      emptyDb).2.trace = [] ∧
    nextArgs (run (securityMiddleware true (fun _ _ => Except.ok allowDecision) guestRequest)
      emptyDb).2.trace = [none] ∧
    (run (securityMiddleware true (fun _ _ => Except.ok allowDecision) guestRequest)
      emptyDb).1 = Except.ok () :=
  securityMiddleware_allowed_calls_next_once true (fun _ _ => Except.ok allowDecision)
    guestRequest emptyDb allowDecision rfl rfl

/-- X2: on a response that accepts every call, the middleware sends one 403
response for each denial test that holds, in the order bot, shield, rate
limit, and then calls `next()` once. -/
theorem securityMiddleware_one_response_per_flag
    (protect : Rule → Request → Except JsError Decision) (req : Request) (db : Db)
    (decision : Decision)
    (h : protect (ruleOf req) req = Except.ok decision) :
    responses (run (securityMiddleware false protect req) db).2.trace =
      denialResponses decision ∧
    nextArgs (run (securityMiddleware false protect req) db).2.trace = [none] := by
  rw [securityMiddleware_protect_at_rule, h]
  obtain ⟨denied, bot, shield, rateLimit, text⟩ := decision
  cases denied <;> cases bot <;> cases shield <;> cases rateLimit <;> exact ⟨rfl, rfl⟩

/-- X2 at a concrete input: a decision denied because of the rate limit. -/
theorem securityMiddleware_one_response_per_flag_witness :
    responses (run (securityMiddleware false (fun _ _ => Except.ok rateLimitDecision)
      guestRequest) emptyDb).2.trace = denialResponses rateLimitDecision ∧
    nextArgs (run (securityMiddleware false (fun _ _ => Except.ok rateLimitDecision)
      guestRequest) emptyDb).2.trace = [none] :=
  securityMiddleware_one_response_per_flag (fun _ _ => Except.ok rateLimitDecision)
    guestRequest emptyDb rateLimitDecision rfl

/-- X3: for a decision denied because of the shield, the one warn-level
record holds the ip, the user agent, the path and the method of the request. -/
theorem securityMiddleware_shield_warning_has_method (strict : Bool) (req : Request)
    (db : Db) :
    warnings (run (securityMiddleware strict (fun _ _ => Except.ok shieldDecision) req)
        db).2.trace =
      [("Shield request detected.",
        Json.obj [("ip", Json.ofOption req.ip), ("userAgent", Json.ofOption req.userAgent),
          ("path", Json.str req.path), ("method", Json.str req.method)])] := by
  cases strict <;> rfl

/-- X4: when no user has the email and `bcrypt.hash` returns, `createUser`
returns the id the database gave, the name, the email, the role (the role
user when none is given) and the creation time, and the database gains one
row, which holds the hash and not the password. -/
theorem createUser_new_email (env : Env) (db : Db) (name email password hashed : String)
    (role : Option String)
    (hNew : ∀ u ∈ db.rows, u.email ≠ email)
    (hHash : env.bcryptHash password 10 = Except.ok hashed) :
    (run (createUser env name email password role) db).1 =
      Except.ok (NewUser.mk db.nextId name email (role.getD "user") env.now) ∧
    (run (createUser env name email password role) db).2.db.rows =
      db.rows ++ [UserRow.mk db.nextId name email hashed (role.getD "user") env.now] := by
  have hNone := findByEmail_eq_nil db email hNew
  simp [run, createUser, hashPassword, insertUser, selectUserByEmail, World.init, hNone, hHash,
    bind, Js.bind, pure, Js.pure, tryCatch, tryCatchThe, MonadExcept.tryCatch, Js.tryCatch,
    emit, logger, liftExcept]

/-- X4 at a concrete input: a new user on the database of one user. -/
theorem createUser_new_email_witness :
    (run (createUser sampleEnv "Bob" "bob@example.com" "secret2" none) adaDb).1 =
      Except.ok (NewUser.mk adaDb.nextId "Bob" "bob@example.com" ((none : Option String).getD "user")
        sampleEnv.now) ∧
    (run (createUser sampleEnv "Bob" "bob@example.com" "secret2" none) adaDb).2.db.rows =
      adaDb.rows ++ [UserRow.mk adaDb.nextId "Bob" "bob@example.com" "hash:secret2"
        ((none : Option String).getD "user") sampleEnv.now] :=
  createUser_new_email sampleEnv adaDb "Bob" "bob@example.com" "secret2" "hash:secret2" none
    (by simp [adaDb, adaRow]) (by simp [sampleEnv])

/-- X5: when the body passes the validation, the lookup returns a user,
`bcrypt.compare` returns true and `jwt.sign` returns a token, the signin
handler signs the id, email and role of the user, sets the cookie `token` to
the token, and sends one response, status 200. -/
theorem signin_success (env : Env) (req : Request) (db : Db) (data : SigninData)
    (user : UserRow) (token : String)
    (hv : env.signinSchema req.body = Except.ok data)
    (hf : db.findByEmail data.email = [user])
    (hc : env.bcryptCompare data.password user.password = Except.ok true)
    (hs : env.jwtSign (Claims.mk user.id user.email user.role) (JWT_SECRET env)
      JWT_EXPIRES_IN = Except.ok token) :
    responses (run (signin env req) db).2.trace =
      [(200, Json.obj [("message", Json.str "Connexion réussie"),
        ("user", userJson user.id user.name user.email user.role)])] ∧
    cookieSets (run (signin env req) db).2.trace = [("token", token)] ∧
    jwtSigns (run (signin env req) db).2.trace = [Claims.mk user.id user.email user.role] ∧
    nextCalls (run (signin env req) db).2.trace = 0 := by
  simp [run, signin, authenticateUser, comparePassword, jwttokenSign, cookiesSet,
    selectUserByEmail, World.init, hv, hf, hc, hs, bind, Js.bind, pure, Js.pure, tryCatch,
    tryCatchThe, MonadExcept.tryCatch, Js.tryCatch, emit, logger, liftExcept, resStatusJson,
    responses, cookieSets, jwtSigns, nextCalls]

/-- X5 at a concrete input: the stored user with the right password. -/
theorem signin_success_witness :
    responses (run (signin sampleEnv adaSignin) adaDb).2.trace =
      [(200, Json.obj [("message", Json.str "Connexion réussie"),
        ("user", userJson adaRow.id adaRow.name adaRow.email adaRow.role)])] ∧
    cookieSets (run (signin sampleEnv adaSignin) adaDb).2.trace =
      [("token", "token:ada@example.com")] ∧
    jwtSigns (run (signin sampleEnv adaSignin) adaDb).2.trace =
      [Claims.mk adaRow.id adaRow.email adaRow.role] ∧
    nextCalls (run (signin sampleEnv adaSignin) adaDb).2.trace = 0 :=
  signin_success sampleEnv adaSignin adaDb { email := "ada@example.com", password := "secret1" }
    adaRow "token:ada@example.com" rfl (by simp [Db.findByEmail, adaDb, adaRow])
    (by simp [sampleEnv, adaRow]) (by simp [sampleEnv, adaRow])

end Exequias
